import Mathlib

/-!
Verification development for the SmartSalesAgent print-shop conversation
subsystem.  The Python sources (`database.py`, `main.py`,
`services/conversation_service.py`, `services/order_service.py`,
`services/ai_service.py`) are shallowly embedded below: ORM rows become
structures, the dynamically typed attribute values stored on a
conversation-state row become the `PyVal` sum type, database sessions
become explicit record threading, and each source function becomes a
computable Lean function with the same name (a leading underscore from
the source is dropped where Lean naming makes it awkward).
-/

namespace SmartSales

/-- Accessory selection entry, the shape stored in the JSON column
`selected_accessories` (`[{"id": 1, "qty": 500}]` per `database.py`);
`build_final_summary` additionally reads an optional `name` key. -/
structure AccSel where
  name : Option String := none
  id : Option Int := none
  qty : Option Int := none
deriving DecidableEq

/-- A dynamically typed Python value as stored on an ORM attribute or in an
extracted-fields mapping: `None`, an int, a string, a bool, or the JSON
list of accessory selections. -/
inductive PyVal where
  | none
  | int (n : Int)
  | str (s : String)
  | bool (b : Bool)
  | accList (xs : List AccSel)
deriving DecidableEq

/-- Python truthiness (`if value:`): `None`, `0`, the empty string, `False`
and the empty list are falsy, everything else is truthy. -/
def truthy : PyVal → Bool
  | PyVal.none => false
  | PyVal.int n => n != 0
  | PyVal.str s => s ≠ ""
  | PyVal.bool b => b
  | PyVal.accList xs => !xs.isEmpty

/-- Python string conversion used for f-string interpolation. -/
def pyToString : PyVal → String
  | PyVal.none => "None"
  | PyVal.int n => toString n
  | PyVal.str s => s
  | PyVal.bool b => if b then "True" else "False"
  | PyVal.accList _ => "[...]"

/-- Whether `pat` occurs at the head of `hay` (on character lists, kept
structurally recursive so concrete evaluation reduces). -/
def listStartsWith : List Char → List Char → Bool
  | _, [] => true
  | [], _ :: _ => false
  | h :: hs, p :: ps => h = p && listStartsWith hs ps

/-- Whether `pat` occurs anywhere in `hay`. -/
def listContainsSub (hay pat : List Char) : Bool :=
  match hay with
  | [] => listStartsWith [] pat
  | _ :: rest => listStartsWith hay pat || listContainsSub rest pat

/-- Python `needle in hay` on strings, also used for the SQL
`LIKE "%pat%"` filters. -/
def containsStr (hay pat : String) : Bool :=
  listContainsSub hay.data pat.data

/-- Python `message.strip().lower()`, on character lists: strip leading
and trailing whitespace, then lowercase.  The keywords compared against
are Arabic (caseless) or already-lowercase ASCII, where `Char.toLower`
agrees with `str.lower`. -/
def pyStripLower (s : String) : String :=
  String.mk ((((s.data.dropWhile Char.isWhitespace).reverse.dropWhile
    Char.isWhitespace).reverse).map Char.toLower)

/-- Conversation state row (`ConversationState` in `database.py`).  The
attributes are dynamically assigned by `ConversationManager.update_state`,
so each mutable column is modelled as a `PyVal`. -/
structure ConversationState where
  id : PyVal := PyVal.none
  phone_number : PyVal := PyVal.none
  current_step : PyVal := PyVal.str "greeting"
  selected_category_id : PyVal := PyVal.none
  selected_type_id : PyVal := PyVal.none
  selected_variant_id : PyVal := PyVal.none
  selected_quantity : PyVal := PyVal.none
  selected_accessories : PyVal := PyVal.none
  customer_name : PyVal := PyVal.none
  notes : PyVal := PyVal.none
  last_message : PyVal := PyVal.none
  updated_at : PyVal := PyVal.none
deriving DecidableEq

/-- The attributes of a `ConversationState` record, as an enumeration. -/
inductive StateField where
  | id | phone_number | current_step | selected_category_id | selected_type_id
  | selected_variant_id | selected_quantity | selected_accessories
  | customer_name | notes | last_message | updated_at
deriving DecidableEq

/-- The attribute name of each field. -/
def fieldNameOf : StateField → String
  | StateField.id => "id"
  | StateField.phone_number => "phone_number"
  | StateField.current_step => "current_step"
  | StateField.selected_category_id => "selected_category_id"
  | StateField.selected_type_id => "selected_type_id"
  | StateField.selected_variant_id => "selected_variant_id"
  | StateField.selected_quantity => "selected_quantity"
  | StateField.selected_accessories => "selected_accessories"
  | StateField.customer_name => "customer_name"
  | StateField.notes => "notes"
  | StateField.last_message => "last_message"
  | StateField.updated_at => "updated_at"

/-- Resolve an attribute name, `some` exactly when `hasattr(state, name)`
holds for a column of the record. -/
def attrOfName : String → Option StateField
  | "id" => some StateField.id
  | "phone_number" => some StateField.phone_number
  | "current_step" => some StateField.current_step
  | "selected_category_id" => some StateField.selected_category_id
  | "selected_type_id" => some StateField.selected_type_id
  | "selected_variant_id" => some StateField.selected_variant_id
  | "selected_quantity" => some StateField.selected_quantity
  | "selected_accessories" => some StateField.selected_accessories
  | "customer_name" => some StateField.customer_name
  | "notes" => some StateField.notes
  | "last_message" => some StateField.last_message
  | "updated_at" => some StateField.updated_at
  | _ => Option.none

/-- Read one field (`getattr`). -/
def getF (s : ConversationState) : StateField → PyVal
  | StateField.id => s.id
  | StateField.phone_number => s.phone_number
  | StateField.current_step => s.current_step
  | StateField.selected_category_id => s.selected_category_id
  | StateField.selected_type_id => s.selected_type_id
  | StateField.selected_variant_id => s.selected_variant_id
  | StateField.selected_quantity => s.selected_quantity
  | StateField.selected_accessories => s.selected_accessories
  | StateField.customer_name => s.customer_name
  | StateField.notes => s.notes
  | StateField.last_message => s.last_message
  | StateField.updated_at => s.updated_at

/-- Write one field (`setattr` with a known attribute). -/
def setF (s : ConversationState) : StateField → PyVal → ConversationState
  | StateField.id, v => { s with id := v }
  | StateField.phone_number, v => { s with phone_number := v }
  | StateField.current_step, v => { s with current_step := v }
  | StateField.selected_category_id, v => { s with selected_category_id := v }
  | StateField.selected_type_id, v => { s with selected_type_id := v }
  | StateField.selected_variant_id, v => { s with selected_variant_id := v }
  | StateField.selected_quantity, v => { s with selected_quantity := v }
  | StateField.selected_accessories, v => { s with selected_accessories := v }
  | StateField.customer_name, v => { s with customer_name := v }
  | StateField.notes, v => { s with notes := v }
  | StateField.last_message, v => { s with last_message := v }
  | StateField.updated_at, v => { s with updated_at := v }

/-- `hasattr(state, name)` restricted to the columns of the record. -/
def hasAttrCS (name : String) : Bool :=
  (attrOfName name).isSome

/-- `getattr(state, name)` when the attribute exists. -/
def getAttrCS (s : ConversationState) (name : String) : Option PyVal :=
  (attrOfName name).map (getF s)

/-- `setattr(state, name, v)` guarded by attribute existence; an unknown
name leaves the record untouched. -/
def setAttrCS (s : ConversationState) (name : String) (v : PyVal) : ConversationState :=
  match attrOfName name with
  | some f => setF s f v
  | Option.none => s

/-- `ConversationManager.update_state`: apply each supplied keyword pair
whose key is an attribute of the record, then refresh `updated_at` (the
wall clock is passed in as `now`). -/
def update_state (s : ConversationState) (kwargs : List (String × PyVal))
    (now : Int) : ConversationState :=
  let s1 := kwargs.foldl
    (fun st kv => if hasAttrCS kv.1 then setAttrCS st kv.1 kv.2 else st) s
  { s1 with updated_at := PyVal.int now }

/-- `ConversationManager.reset_state`: back to the greeting step with the
selection fields, accessories and notes cleared. -/
def reset_state (s : ConversationState) (now : Int) : ConversationState :=
  { s with
    current_step := PyVal.str "greeting"
    selected_category_id := PyVal.none
    selected_type_id := PyVal.none
    selected_variant_id := PyVal.none
    selected_quantity := PyVal.none
    selected_accessories := PyVal.none
    notes := PyVal.none
    updated_at := PyVal.int now }

/-- Catalog row `ProductCategory`. -/
structure ProductCategory where
  id : Int
  name : String
  name_en : Option String := none
  description : Option String := none
  icon : String := "📦"
deriving DecidableEq

/-- Catalog row `ProductType`. -/
structure ProductType where
  id : Int
  category_id : Int
  name : String
  name_en : Option String := none
  material : Option String := none
  description : Option String := none
deriving DecidableEq

/-- Catalog row `ProductVariant`. -/
structure ProductVariant where
  id : Int
  type_id : Int
  name : String
  size : Option String := none
  size_details : Option String := none
  variant_type : Option String := none
  min_quantity : Int := 100
  is_available : Bool := true
deriving DecidableEq

/-- The product-detail sub-dictionary stored under the `variant` key of an
order summary. -/
structure VariantInfo where
  name : String
  size : Option String
  size_details : Option String
  variant_type : Option String
  min_quantity : Int
deriving DecidableEq

/-- The dictionary built by `ConversationManager.get_order_summary`; the
`type` key is initialised to `None` and never written. -/
structure OrderSummaryDict where
  category : PyVal := PyVal.none
  type : PyVal := PyVal.none
  variant : Option VariantInfo := none
  quantity : PyVal := PyVal.none
  accessories : PyVal := PyVal.none
  customer_name : PyVal := PyVal.none
deriving DecidableEq

/-- `get_order_summary` is annotated `-> Dict` but one code path returns a
plain string, so its result is either shape. -/
inductive SummaryResult where
  | dict (d : OrderSummaryDict)
  | text (s : String)
deriving DecidableEq

/-- Order row (`Order` in `database.py`). -/
structure Order where
  id : Int
  customer_phone : PyVal
  customer_name : PyVal
  business_name : Option String := none
  order_details : SummaryResult := SummaryResult.dict {}
  total_amount : Option ℚ := none
  invoice_path : Option String := none
  status : String := "New"
  has_capacity : Option Bool := none
  approved_amount : Option ℚ := none
  estimated_days : Option Int := none
  payment_url : Option String := none
  payment_status : String := "Pending"
  paid_at : Option Int := none
  notes : PyVal := PyVal.none
  created_at : Int := 0
deriving DecidableEq

/-- The database contents reachable from the conversation subsystem:
catalog tables plus the append-only orders table. -/
structure DB where
  categories : List ProductCategory := []
  types : List ProductType := []
  variants : List ProductVariant := []
  orders : List Order := []
deriving DecidableEq

/-- Python truthiness of an optional-string column (`None` and `""` are
falsy). -/
def optStrTruthy : Option String → Bool
  | Option.none => false
  | some s => s ≠ ""

/-- Greeting script pieces from `_greeting_message`; the same literals are
pasted inside `get_order_summary` in the source. -/
def base_greeting : String :=
  "أهلاً بك! نحن هنا لتحويل فكرتك إلى واقع. في أي طلب، يمكنك كتابة ملاحظاتك الدقيقة إذا كنت "
  ++ "تفضل شيئاً خاصاً بالتصميم، مثل: \x27أريد حبل الكيس مخفياً من الداخل\x27 أو \x27استبداله بشريطة حمراء\x27. "
  ++ "أنا أفهم طلبك جيداً، وجميع ملاحظاتك ستؤخذ بعين الاعتبار بدقة، فلا تقلق."

/-- Identity line of the greeting script. -/
def identity_line : String :=
  "أنا وكيل المبيعات لدى مطبعة خالد الحسن، ومستعد أخدمك من البداية للنهاية."

/-- Follow-up line of the greeting script. -/
def follow_up : String :=
  "هل تود أن نبدأ الآن بتحديد نوع المنتج أو المواد التي تفكر بها؟ أرسل لي أي تفاصيل موجودة عندك وسأرتبها لك."

/-- The full greeting message (`_greeting_message`). -/
def greetingMessage : String :=
  base_greeting ++ "\n" ++ identity_line ++ "\n" ++ follow_up

/-- `_category_message`: enumerate all categories with icon and 1-based
index. -/
def category_message (db : DB) : String :=
  (db.categories.enumFrom 1).foldl
    (fun msg p => msg ++ p.2.icon ++ " " ++ toString p.1 ++ ". " ++ p.2.name ++ "\n")
    "اختر القسم:\n\n"

/-- `_type_message`: enumerate the types under a category. -/
def type_message (db : DB) (category_id : PyVal) : String :=
  let types := db.types.filter (fun t => decide (PyVal.int t.category_id = category_id))
  if types.isEmpty then
    "عذراً، لا توجد منتجات في هذا القسم حالياً."
  else
    (types.enumFrom 1).foldl
      (fun msg p =>
        let material := match p.2.material with
          | some m => if m ≠ "" then " (" ++ m ++ ")" else ""
          | Option.none => ""
        msg ++ toString p.1 ++ ". " ++ p.2.name ++ material ++ "\n")
      "اختر النوع:\n\n"

/-- `_size_message`: the insertion-ordered mapping of distinct truthy sizes
to their detail annotation, then the prompt. -/
def size_message (db : DB) (type_id : PyVal) : String :=
  let variants := db.variants.filter (fun v => decide (PyVal.int v.type_id = type_id))
  let sizes : List (String × String) := variants.foldl
    (fun acc v =>
      match v.size with
      | some sz =>
        if sz ≠ "" ∧ ¬ (acc.map Prod.fst).contains sz then
          acc ++ [(sz, match v.size_details with
            | some d => if d ≠ "" then " (" ++ d ++ ")" else ""
            | Option.none => "")]
        else acc
      | Option.none => acc) []
  if sizes.isEmpty then
    "ما هو الحجم المطلوب؟"
  else
    (sizes.enumFrom 1).foldl
      (fun msg p => msg ++ toString p.1 ++ ". " ++ p.2.1 ++ p.2.2 ++ "\n")
      "📏 اختر الحجم:\n\n"

/-- The distinct truthy variant-kind labels among the variants of a type.
The source collects them in a Python `set`, whose iteration order is
unspecified; the model fixes first-insertion order, which only matters for
the text of a non-skipped prompt. -/
def variantKinds (db : DB) (type_id : PyVal) : List String :=
  (db.variants.filter (fun v => decide (PyVal.int v.type_id = type_id))).foldl
    (fun acc v =>
      match v.variant_type with
      | some vt => if vt ≠ "" ∧ ¬ acc.contains vt then acc ++ [vt] else acc
      | Option.none => acc) []

/-- One enumerated line of the variant prompt, with the fixed editorial
annotations. -/
def variantLine (i : Nat) (vt : String) : String :=
  if containsStr vt "مزدوج" ∨ containsStr vt "دبل" then
    toString i ++ ". " ++ vt ++ " (فاخر - عزل حراري عالي) ⭐\n"
  else if containsStr vt "واحد" ∨ containsStr vt "سنجل" then
    toString i ++ ". " ++ vt ++ " (اقتصادي)\n"
  else if containsStr vt "مموج" then
    toString i ++ ". " ++ vt ++ " (فخم - ملمس بارز) ✨\n"
  else
    toString i ++ ". " ++ vt ++ "\n"

/-- `_variant_message`: `none` models the Python `return None` that skips
this step when the type has no distinct variant kinds. -/
def variant_message (db : DB) (type_id : PyVal) : Option String :=
  let kinds := variantKinds db type_id
  if kinds.isEmpty then
    Option.none
  else
    some ((kinds.enumFrom 1).foldl
      (fun msg p => msg ++ variantLine p.1 p.2) "اختر النوع:\n\n")

/-- `_quantity_message`: minimum quantity of the selected variant, default
500. -/
def quantity_message (db : DB) (s : ConversationState) : String :=
  let min_qty : Int :=
    if truthy s.selected_variant_id then
      match db.variants.find? (fun v => decide (PyVal.int v.id = s.selected_variant_id)) with
      | some v => v.min_quantity
      | Option.none => 500
    else 500
  "\n🔢 كم الكمية المطلوبة؟\n\n📌 الحد الأدنى للطلب: " ++ toString min_qty
    ++ " قطعة\n💡 كلما زادت الكمية، انخفض سعر الوحدة\n"

/-- `build_final_summary`: the human-readable order summary lines. -/
def build_final_summary (db : DB) (s : ConversationState) : String :=
  let categoryLines : List String :=
    if truthy s.selected_category_id then
      match db.categories.find? (fun c => decide (PyVal.int c.id = s.selected_category_id)) with
      | some c => ["🗂 القسم: " ++ c.name]
      | Option.none => []
    else []
  let typeLines : List String :=
    if truthy s.selected_type_id then
      match db.types.find? (fun t => decide (PyVal.int t.id = s.selected_type_id)) with
      | some t =>
        let material := match t.material with
          | some m => if m ≠ "" then " (" ++ m ++ ")" else ""
          | Option.none => ""
        ["📄 النوع: " ++ t.name ++ material]
      | Option.none => []
    else []
  let variantLines : List String :=
    if truthy s.selected_variant_id then
      match db.variants.find? (fun v => decide (PyVal.int v.id = s.selected_variant_id)) with
      | some v =>
        ["📦 المنتج: " ++ v.name]
        ++ (if optStrTruthy v.size_details then ["📏 المقاس: " ++ v.size_details.getD ""]
            else if optStrTruthy v.size then ["📏 المقاس: " ++ v.size.getD ""]
            else [])
        ++ (if optStrTruthy v.variant_type then ["⚙️ النوع: " ++ v.variant_type.getD ""] else [])
      | Option.none => []
    else []
  let quantityLines : List String :=
    if truthy s.selected_quantity then ["🔢 الكمية: " ++ pyToString s.selected_quantity] else []
  let accessoryLines : List String :=
    match s.selected_accessories with
    | PyVal.accList xs =>
      if !xs.isEmpty then
        "➕ الملحقات:" :: xs.filterMap (fun acc =>
          let nm : PyVal := match acc.name with
            | some n => if n ≠ "" then PyVal.str n else
              (match acc.id with | some i => PyVal.int i | Option.none => PyVal.none)
            | Option.none => match acc.id with | some i => PyVal.int i | Option.none => PyVal.none
          let qty : PyVal := match acc.qty with
            | some q => PyVal.int q
            | Option.none => PyVal.none
          if truthy nm ∧ truthy qty then
            some ("  • " ++ pyToString nm ++ " × " ++ pyToString qty)
          else Option.none)
      else []
    | _ => []
  let noteLines : List String :=
    if truthy s.notes then ["", "📝 ملاحظات العميل: " ++ pyToString s.notes] else []
  String.intercalate "\n"
    (["📋 ملخص طلبك النهائي:", ""] ++ categoryLines ++ typeLines ++ variantLines
      ++ quantityLines ++ accessoryLines ++ noteLines
      ++ ["", "💰 السعر: سيتم تحديده من قبل إدارة مطبعة خالد الحسن بعد مراجعة الإمكانية."])

/-- `_confirm_message`: final summary plus the confirm/edit/cancel prompt. -/
def confirm_message (db : DB) (s : ConversationState) : String :=
  build_final_summary db s
    ++ "\n\nهذا هو ملخص طلبك النهائي.\n\nهل أنت موافق على هذا الطلب؟\nاكتب: موافق / تعديل / إلغاء"

/-- `ConversationManager.generate_step_message`: the deterministic prompt
for the current step.  Every branch yields a string except the `variant`
branch, which passes through the possible `None` of `_variant_message`. -/
def generate_step_message (db : DB) (s : ConversationState) : Option String :=
  if s.current_step = PyVal.str "greeting" then some greetingMessage
  else if s.current_step = PyVal.str "category" then some (category_message db)
  else if s.current_step = PyVal.str "type" then some (type_message db s.selected_category_id)
  else if s.current_step = PyVal.str "size" then some (size_message db s.selected_type_id)
  else if s.current_step = PyVal.str "variant" then variant_message db s.selected_type_id
  else if s.current_step = PyVal.str "quantity" then some (quantity_message db s)
  else if s.current_step = PyVal.str "confirm" then some (confirm_message db s)
  else some "كيف يمكنني مساعدتك؟"

/-- `ConversationManager.get_order_summary`.  The source builds the result
dictionary, but whenever a category is selected it falls into a pasted
greeting block and returns that string instead of the dictionary; the
`type` key is never filled in. -/
def get_order_summary (db : DB) (s : ConversationState) : SummaryResult :=
  let base : OrderSummaryDict :=
    { category := PyVal.none
      type := PyVal.none
      variant := Option.none
      quantity := s.selected_quantity
      accessories := s.selected_accessories
      customer_name := s.customer_name }
  if truthy s.selected_category_id then
    SummaryResult.text greetingMessage
  else if truthy s.selected_variant_id then
    match db.variants.find? (fun v => decide (PyVal.int v.id = s.selected_variant_id)) with
    | some v =>
      let info : VariantInfo :=
        { name := v.name, size := v.size, size_details := v.size_details,
          variant_type := v.variant_type, min_quantity := v.min_quantity }
      SummaryResult.dict { base with variant := some info }
    | Option.none => SummaryResult.dict base
  else
    SummaryResult.dict base

/-- `order_service.create_order_from_state`: build the snapshot through
`get_order_summary`, then append one order row with status
`PendingApproval`, no total amount, and payment pending.  The
autoincrement primary key is modelled as row count plus one. -/
def create_order_from_state (db : DB) (s : ConversationState) (now : Int) : DB × Order :=
  let summary := get_order_summary db s
  let order : Order :=
    { id := Int.ofNat db.orders.length + 1
      customer_phone := s.phone_number
      customer_name :=
        if truthy s.customer_name then s.customer_name else PyVal.str "عميل بدون اسم"
      business_name := Option.none
      order_details := summary
      total_amount := Option.none
      invoice_path := Option.none
      status := "PendingApproval"
      has_capacity := Option.none
      approved_amount := Option.none
      estimated_days := Option.none
      payment_url := Option.none
      payment_status := "Pending"
      paid_at := Option.none
      notes := PyVal.none
      created_at := now }
  ({ db with orders := db.orders ++ [order] }, order)

/-- The per-order effect of `set_management_decision`: the capacity flag
is always recorded; without capacity only the status moves to
`RejectedNoCapacity`, with capacity the approved amount, estimated days
and total amount are written and the status moves to
`ApprovedWaitingPayment`. -/
def decidedOrder (o : Order) (has_capacity : Bool)
    (approved_amount : Option ℚ) (estimated_days : Option Int) : Order :=
  if has_capacity then
    { o with has_capacity := some has_capacity
             approved_amount := approved_amount
             estimated_days := estimated_days
             total_amount := approved_amount
             status := "ApprovedWaitingPayment" }
  else
    { o with has_capacity := some has_capacity
             status := "RejectedNoCapacity" }

/-- The orders table after the in-place update of the decided order row. -/
def decidedDB (db : DB) (order_id : Int) (o2 : Order) : DB :=
  { db with orders := db.orders.map (fun x => if x.id = order_id then o2 else x) }

/-- `order_service.set_management_decision`: look the order up by id
(`ValueError` when missing, modelled as `Except.error`), then apply
`decidedOrder` to it in place. -/
def set_management_decision (db : DB) (order_id : Int) (has_capacity : Bool)
    (approved_amount : Option ℚ) (estimated_days : Option Int) :
    Except String (DB × Order) :=
  match db.orders.find? (fun o => decide (o.id = order_id)) with
  | Option.none => Except.error ("Order " ++ toString order_id ++ " not found")
  | some o =>
    let o2 : Order := decidedOrder o has_capacity approved_amount estimated_days
    Except.ok (decidedDB db order_id o2, o2)

/-- The extracted-fields mapping produced by `analyze_message`; the keys
read by `main.process_message_task` are modelled (`intent`, `category`,
`quantity`, `ready_for_invoice`), each defaulting to `None` as `dict.get`
does for a missing key. -/
structure ExtractedData where
  intent : PyVal := PyVal.none
  category : PyVal := PyVal.none
  quantity : PyVal := PyVal.none
  ready_for_invoice : PyVal := PyVal.none
deriving DecidableEq

/-- The value returned by `analyze_message`: the reply text under
`response` and the extracted fields under `data`. -/
structure AnalyzeResult where
  response : String
  data : ExtractedData
deriving DecidableEq

/-- Outcome of the external model call inside `analyze_message`: the text
of the completion, or an exception anywhere in the guarded block. -/
inductive AICallResult where
  | success (content : String)
  | failure
deriving DecidableEq

/-- The fixed low-confidence reply of `analyze_message` on internal
failure. -/
def aiErrorResponse : String :=
  "عذراً، حدث خطأ. كيف يمكنني مساعدتك؟"

/-- `ai_service.analyze_message`: split the completion on the JSON marker
and parse the trailing JSON (`jsonParse` stands for `json.loads`, `none`
modelling its exception, recovered as intent `other`); a failure of the
model call itself yields the fixed error reply with intent `error`. -/
def analyze_message (call : AICallResult)
    (jsonParse : String → Option ExtractedData) : AnalyzeResult :=
  match call with
  | AICallResult.failure =>
    { response := aiErrorResponse, data := { intent := PyVal.str "error" } }
  | AICallResult.success full =>
    let parts := full.splitOn "---JSON---"
    if parts.length ≥ 2 then
      { response := (parts.headD "").trim
        data :=
          match jsonParse ((parts.getD 1 "").trim) with
          | some d => d
          | Option.none => { intent := PyVal.str "other" } }
    else
      { response := full, data := { intent := PyVal.str "other" } }

/-- The cancel/restart vocabulary checked first on every turn. -/
def cancelKeywords : List String :=
  ["إلغاء", "cancel", "بداية", "start", "من جديد"]

/-- Affirmative vocabulary at the confirm step. -/
def affirmativeWords : List String :=
  ["موافق", "ok", "نعم", "تمام"]

/-- Edit vocabulary at the confirm step. -/
def editWords : List String :=
  ["تعديل", "edit"]

/-- Cancellation vocabulary specific to the confirm step. -/
def confirmCancelWords : List String :=
  ["إلغاء", "الغاء", "cancel"]

/-- Acknowledgment sent after an order is taken at the confirm step. -/
def orderAck : String :=
  "تم استلام طلبك.\n"
  ++ "بحال توفر طلبك وموافقة الادارة على التنفيذ راح أعطيك تفاصيل الدفع بأقرب وقت."

/-- Acknowledgment sent after cancelling at the confirm step. -/
def confirmCancelAck : String :=
  "تم إلغاء الطلب الحالي. متى ما حبيت نبدأ من جديد أنا جاهز."

/-- The fixed apology sent when processing a turn raises an exception. -/
def errorApology : String :=
  "\nعذراً، حدث خطأ. 😅\n\nيمكنك:\n• كتابة \"بداية\" للبدء من جديد\n• أو اكتب ما تحتاجه وسأحاول مساعدتك\n"

/-- The observable outcome of one inbound turn: the database after the
turn (its orders table may have grown), the conversation state after the
turn, and the text handed to `send_response` (`none` is Python `None`). -/
structure TurnResult where
  db : DB
  state : ConversationState
  response : Option String
deriving DecidableEq

/-- Truthiness of the `response_text` variable (`None` and `""` falsy). -/
def respTruthy : Option String → Bool
  | Option.none => false
  | some s => s ≠ ""

/-- The extracted-field merge of `process_message_task` (its category and
quantity branches): a recognised category name sets the category and moves
to the type step; a truthy quantity sets the quantity and moves straight
to the confirm step. -/
def mergeExtractedState (db : DB) (state0 : ConversationState)
    (extracted : ExtractedData) (now : Int) : ConversationState :=
  let state1 :=
    if truthy extracted.category then
      match db.categories.find? (fun c => containsStr c.name (pyToString extracted.category)) with
      | some cat =>
        update_state state0
          [("selected_category_id", PyVal.int cat.id), ("current_step", PyVal.str "type")] now
      | Option.none => state0
    else state0
  if truthy extracted.quantity then
    update_state state1
      [("selected_quantity", extracted.quantity), ("current_step", PyVal.str "confirm")] now
  else state1

/-- The tail of `process_message_task` after the command handling: merge
the extracted fields into the state, attempt the ready-for-invoice path,
and choose the outbound text.  Every path commits the merged state and
leaves the orders table alone; only the outbound text differs.  The
ready-for-invoice path always raises in the source — `order_summary.get`
on the string summary is an `AttributeError`, and `create_invoice` passes
the nonexistent `product_name` column to the `Order` constructor, a
`TypeError` — so both of its live arms end in the fixed apology with the
state changes already committed and no order row written. -/
def interpretFlow (db : DB) (state0 : ConversationState) (ai : AnalyzeResult)
    (now : Int) : TurnResult :=
  let response_text : Option String := some ai.response
  let state2 := mergeExtractedState db state0 ai.data now
  let response : Option String :=
    if truthy ai.data.ready_for_invoice then
      match get_order_summary db state2 with
      | SummaryResult.text _ => some errorApology
      | SummaryResult.dict d =>
        if d.variant.isSome ∧ truthy state2.selected_quantity then some errorApology
        else if respTruthy response_text then response_text
        else generate_step_message db state2
    else if respTruthy response_text then response_text
    else generate_step_message db state2
  { db := db, state := state2, response := response }

/-- `main.process_message_task` for one inbound turn, with the result of
`analyze_message` passed in (it is consulted only on the fall-through
path).  Order of checks follows the source: cancel/restart commands, then
the confirm-step vocabulary (affirm creates an order and returns without
touching the state; edit moves to the quantity step; the confirm-specific
cancel resets), then interpretation. -/
def process_message_task (db : DB) (state : ConversationState) (msg : String)
    (ai : AnalyzeResult) (now : Int) : TurnResult :=
  if pyStripLower msg ∈ cancelKeywords then
    let st1 := reset_state state now
    { db := db, state := st1, response := generate_step_message db st1 }
  else if state.current_step = PyVal.str "confirm" ∧ pyStripLower msg ∈ affirmativeWords then
    let res := create_order_from_state db state now
    { db := res.1, state := state, response := some orderAck }
  else if state.current_step = PyVal.str "confirm" ∧ pyStripLower msg ∈ editWords then
    let st1 := update_state state [("current_step", PyVal.str "quantity")] now
    { db := db, state := st1, response := generate_step_message db st1 }
  else if state.current_step = PyVal.str "confirm" ∧ pyStripLower msg ∈ confirmCancelWords then
    { db := db, state := reset_state state now, response := some confirmCancelAck }
  else
    interpretFlow db state ai now

/-- Test fixture: an empty database. -/
def dbEmpty : DB := {}

/-- Test fixture: a hot-cups category with a double-wall variant, plus the
burger-box type whose variants carry no variant-kind label, mirroring the
seeded catalog rows of `database.init_db`. -/
def dbFix : DB :=
  { categories := [{ id := 1, name := "أكواب", name_en := some "Cups", icon := "☕" }]
    types :=
      [{ id := 1, category_id := 1, name := "أكواب ساخنة", material := some "ورق مقوى" },
       { id := 6, category_id := 3, name := "علب البرجر", material := some "كرتون" }]
    variants :=
      [{ id := 5, type_id := 1, name := "كوب ساخن 8oz دبل", size := some "8 oz",
         variant_type := some "جدار مزدوج", min_quantity := 500 },
       { id := 23, type_id := 6, name := "علبة برجر عادي", size := some "عادي",
         size_details := some "10×10 سم", min_quantity := 500 },
       { id := 24, type_id := 6, name := "علبة برجر جامبو", size := some "جامبو",
         size_details := some "12×12 سم", min_quantity := 500 }]
    orders := [] }

/-- Test fixture: a state parked at the confirm step with a full
selection. -/
def stConfirm : ConversationState :=
  { phone_number := PyVal.str "whatsapp:+100"
    current_step := PyVal.str "confirm"
    selected_category_id := PyVal.int 1
    selected_type_id := PyVal.int 1
    selected_variant_id := PyVal.int 5
    selected_quantity := PyVal.int 1000 }

/-- Test fixture: an `analyze_message` result with an empty reply and no
extracted fields. -/
def aiEmpty : AnalyzeResult := { response := "", data := {} }

/-- Test fixture: a state at the variant step for the burger-box type,
whose variants carry no variant-kind label. -/
def stVariantFix : ConversationState :=
  { phone_number := PyVal.str "whatsapp:+101"
    current_step := PyVal.str "variant"
    selected_category_id := PyVal.int 3
    selected_type_id := PyVal.int 6 }

/-- Test fixture: a state at the type step with nothing selected yet. -/
def stTypeFix : ConversationState :=
  { phone_number := PyVal.str "whatsapp:+102"
    current_step := PyVal.str "type" }

/-- Test fixture: extraction carrying the quantity key with value `0`. -/
def aiQtyZero : AnalyzeResult :=
  { response := "", data := { quantity := PyVal.int 0 } }

/-- Test fixture: extraction carrying quantity `800`. -/
def aiQty800 : AnalyzeResult :=
  { response := "تمام", data := { quantity := PyVal.int 800 } }

/-- Test fixture: a state carrying a customer name, used against
`reset_state`. -/
def stNamed : ConversationState :=
  { phone_number := PyVal.str "whatsapp:+103"
    current_step := PyVal.str "confirm"
    selected_quantity := PyVal.int 700
    customer_name := PyVal.str "سارة" }

/-- Test fixture: a state for exercising `update_state`. -/
def stUpd : ConversationState :=
  { phone_number := PyVal.str "whatsapp:+104"
    customer_name := PyVal.str "نور"
    notes := PyVal.str "قديم" }

/-- Test fixture: an order awaiting the management decision. -/
def o1 : Order :=
  { id := 1
    customer_phone := PyVal.str "whatsapp:+105"
    customer_name := PyVal.str "عميل"
    status := "PendingApproval" }

/-- Test fixture: a database holding only `o1`. -/
def db1 : DB := { orders := [o1] }

/-- Test fixture: `o1` after an approving management decision. -/
def o1approved : Order :=
  { o1 with
    has_capacity := some true
    approved_amount := some 250
    estimated_days := some 7
    total_amount := some 250
    status := "ApprovedWaitingPayment" }

/-- Test fixture: `db1` after the approving decision on `o1`. -/
def db1approved : DB := { db1 with orders := [o1approved] }

/-! Helper lemmas about the attribute machinery of `ConversationState`. -/

/-- Writing one field leaves every other field unchanged. -/
theorem getF_setF_ne (s : ConversationState) (f g : StateField) (v : PyVal)
    (h : f ≠ g) : getF (setF s f v) g = getF s g := by
  cases f <;> cases g <;> simp_all [setF, getF]

/-- A resolved attribute name is the name of the resolved field. -/
theorem attrOfName_eq_name (name : String) (f : StateField)
    (h : attrOfName name = some f) : name = fieldNameOf f := by
  unfold attrOfName at h
  split at h <;> first
    | (injection h with h2; subst h2; rfl)
    | injection h

/-- A guarded attribute write does not disturb a differently named
attribute. -/
theorem getAttr_setAttr_ne (s : ConversationState) (n m : String) (v : PyVal)
    (h : n ≠ m) : getAttrCS (setAttrCS s n v) m = getAttrCS s m := by
  unfold setAttrCS getAttrCS
  cases hn : attrOfName n with
  | none => rfl
  | some f =>
    cases hm : attrOfName m with
    | none => simp [hm]
    | some g =>
      have hfg : f ≠ g := by
        intro he
        exact h ((attrOfName_eq_name n f hn).trans (he ▸ (attrOfName_eq_name m g hm)).symm ▸ rfl)
      simp [hm, getF_setF_ne s f g v hfg]

/-- Rewriting the `updated_at` column does not disturb a differently named
attribute. -/
theorem getAttr_set_updated (s : ConversationState) (v : PyVal) (name : String)
    (h : name ≠ "updated_at") :
    getAttrCS { s with updated_at := v } name = getAttrCS s name := by
  unfold getAttrCS
  cases hn : attrOfName name with
  | none => rfl
  | some f =>
    have hf : f ≠ StateField.updated_at := by
      intro he
      exact h (by rw [attrOfName_eq_name name f hn, he]; rfl)
    cases f <;> simp_all [getF, fieldNameOf]

/-- The keyword fold of `update_state` never touches an attribute whose
name is not among the supplied keys. -/
theorem foldl_updates_frame (kwargs : List (String × PyVal))
    (s : ConversationState) (name : String) (h : name ∉ kwargs.map Prod.fst) :
    getAttrCS (kwargs.foldl
      (fun st kv => if hasAttrCS kv.1 then setAttrCS st kv.1 kv.2 else st) s) name
    = getAttrCS s name := by
  induction kwargs generalizing s with
  | nil => rfl
  | cons kv tl ih =>
    simp only [List.map_cons, List.mem_cons, not_or] at h
    obtain ⟨h1, h2⟩ := h
    simp only [List.foldl_cons]
    rw [ih _ h2]
    by_cases hb : hasAttrCS kv.1
    · rw [if_pos hb, getAttr_setAttr_ne s kv.1 name kv.2 (fun he => h1 he.symm)]
    · rw [if_neg hb]

/-- The keyword fold of `update_state` ignores entries whose key is not an
attribute of the record. -/
theorem foldl_updates_filter (kwargs : List (String × PyVal))
    (s : ConversationState) :
    kwargs.foldl
      (fun st kv => if hasAttrCS kv.1 then setAttrCS st kv.1 kv.2 else st) s
    = (kwargs.filter (fun kv => hasAttrCS kv.1)).foldl
      (fun st kv => if hasAttrCS kv.1 then setAttrCS st kv.1 kv.2 else st) s := by
  induction kwargs generalizing s with
  | nil => rfl
  | cons kv tl ih =>
    by_cases hb : hasAttrCS kv.1
    · simp only [List.foldl_cons, List.filter_cons, hb, if_pos]
      exact ih _
    · simp only [List.foldl_cons, List.filter_cons, hb]
      simp only [if_neg hb, Bool.false_eq_true, if_false]
      exact ih s

/-! Claim theorems. -/

/-- C1, counterexample: at the confirm step the affirmative keyword
`موافق` appends exactly one order row, but the conversation state is NOT
reset — it is left at step `confirm` with the selected quantity intact,
refuting the reset-to-greeting half of the claim. -/
theorem C1_counterexample :
    (process_message_task dbFix stConfirm "موافق" aiEmpty 5).db.orders.length
      = dbFix.orders.length + 1
    ∧ (process_message_task dbFix stConfirm "موافق" aiEmpty 5).state.current_step
      = PyVal.str "confirm"
    ∧ (process_message_task dbFix stConfirm "موافق" aiEmpty 5).state.selected_quantity
      = PyVal.int 1000
    ∧ PyVal.str "confirm" ≠ PyVal.str "greeting" := by
  refine ⟨by decide, by decide, by decide, by decide⟩

/-- C1, amended: at the confirm step an affirmative message (after
trimming and lowercasing) creates exactly one new order record for that
customer, but the conversation state is left unchanged — still at step
`confirm` with its selections intact — rather than being reset to
greeting. -/
theorem C1_amended (db : DB) (st : ConversationState) (msg : String)
    (ai : AnalyzeResult) (now : Int)
    (hstep : st.current_step = PyVal.str "confirm")
    (hmsg : pyStripLower msg ∈ affirmativeWords) :
    (process_message_task db st msg ai now).db.orders
      = db.orders ++ [(create_order_from_state db st now).2]
    ∧ (create_order_from_state db st now).2.customer_phone = st.phone_number
    ∧ (process_message_task db st msg ai now).state = st := by
  have hnc : pyStripLower msg ∉ cancelKeywords := by
    simp only [affirmativeWords, List.mem_cons, List.not_mem_nil, or_false] at hmsg
    rcases hmsg with h | h | h | h <;> rw [h] <;> decide
  unfold process_message_task
  rw [if_neg hnc, if_pos ⟨hstep, hmsg⟩]
  exact ⟨rfl, rfl, rfl⟩

/-- C1, witness for the amended theorem at a concrete confirm-step state
and the affirmative message `ok`. -/
theorem C1_amended_witness :
    (process_message_task dbFix stConfirm "ok" aiEmpty 5).db.orders
      = dbFix.orders ++ [(create_order_from_state dbFix stConfirm 5).2]
    ∧ (create_order_from_state dbFix stConfirm 5).2.customer_phone = stConfirm.phone_number
    ∧ (process_message_task dbFix stConfirm "ok" aiEmpty 5).state = stConfirm :=
  C1_amended dbFix stConfirm "ok" aiEmpty 5 rfl (by decide)

/-- C2: the claim is right and the code is wrong.  For the failing input —
a state with category 1, variant 5 and quantity 1000 selected — the order
snapshot produced by materialization is the pasted greeting string, not a
details dictionary holding copies of the selections: `get_order_summary`
returns the greeting text whenever a category is selected, contradicting
its own `-> Dict` annotation and docstring. -/
theorem C2_order_details :
    stConfirm.selected_category_id = PyVal.int 1
    ∧ stConfirm.selected_variant_id = PyVal.int 5
    ∧ stConfirm.selected_quantity = PyVal.int 1000
    ∧ (create_order_from_state dbFix stConfirm 11).2.order_details
      = SummaryResult.text greetingMessage :=
  ⟨rfl, rfl, rfl, rfl⟩

/-- C3, counterexample: resetting a state that carries a customer name
leaves the name in place, refuting the customer-name-cleared part of the
claim. -/
theorem C3_counterexample :
    (reset_state stNamed 9).customer_name = PyVal.str "سارة"
    ∧ (reset_state stNamed 9).customer_name ≠ PyVal.none
    ∧ (reset_state stNamed 9).customer_name ≠ PyVal.str "" := by
  refine ⟨by decide, by decide, by decide⟩

/-- C3, amended: for every prior state, reset returns a state at step
`greeting` whose selected category, type, variant, quantity, add-ons and
notes are cleared, while the customer identifier AND the customer name are
preserved (the source never clears `customer_name`). -/
theorem C3_amended (st : ConversationState) (now : Int) :
    (reset_state st now).current_step = PyVal.str "greeting"
    ∧ (reset_state st now).selected_category_id = PyVal.none
    ∧ (reset_state st now).selected_type_id = PyVal.none
    ∧ (reset_state st now).selected_variant_id = PyVal.none
    ∧ (reset_state st now).selected_quantity = PyVal.none
    ∧ (reset_state st now).selected_accessories = PyVal.none
    ∧ (reset_state st now).notes = PyVal.none
    ∧ (reset_state st now).phone_number = st.phone_number
    ∧ (reset_state st now).customer_name = st.customer_name :=
  ⟨rfl, rfl, rfl, rfl, rfl, rfl, rfl, rfl, rfl⟩

/-- C3, witness for the amended theorem at the named fixture state. -/
theorem C3_amended_witness :
    (reset_state stNamed 9).current_step = PyVal.str "greeting"
    ∧ (reset_state stNamed 9).selected_category_id = PyVal.none
    ∧ (reset_state stNamed 9).selected_type_id = PyVal.none
    ∧ (reset_state stNamed 9).selected_variant_id = PyVal.none
    ∧ (reset_state stNamed 9).selected_quantity = PyVal.none
    ∧ (reset_state stNamed 9).selected_accessories = PyVal.none
    ∧ (reset_state stNamed 9).notes = PyVal.none
    ∧ (reset_state stNamed 9).phone_number = stNamed.phone_number
    ∧ (reset_state stNamed 9).customer_name = stNamed.customer_name :=
  C3_amended stNamed 9

/-- C4: a cancel/restart keyword at any step resets the state to the
greeting step (exactly `reset_state`) and appends no order row. -/
theorem C4_cancel_resets (db : DB) (st : ConversationState) (msg : String)
    (ai : AnalyzeResult) (now : Int)
    (hmsg : pyStripLower msg ∈ cancelKeywords) :
    (process_message_task db st msg ai now).state = reset_state st now
    ∧ (process_message_task db st msg ai now).state.current_step = PyVal.str "greeting"
    ∧ (process_message_task db st msg ai now).db.orders = db.orders := by
  unfold process_message_task
  rw [if_pos hmsg]
  exact ⟨rfl, rfl, rfl⟩

/-- C4, witness at the confirm-step fixture and the message `Cancel`. -/
theorem C4_cancel_resets_witness :
    (process_message_task dbFix stConfirm "Cancel" aiEmpty 3).state = reset_state stConfirm 3
    ∧ (process_message_task dbFix stConfirm "Cancel" aiEmpty 3).state.current_step
      = PyVal.str "greeting"
    ∧ (process_message_task dbFix stConfirm "Cancel" aiEmpty 3).db.orders = dbFix.orders :=
  C4_cancel_resets dbFix stConfirm "Cancel" aiEmpty 3 (by decide)

/-- C5, counterexample: for the burger-box type (no variant-kind labels),
a turn at the variant step leaves the state AT the variant step — the
engine does not advance past it, refuting the advances-past-the-step part
of the claim, even though prompt generation signals skip. -/
theorem C5_counterexample :
    variantKinds dbFix stVariantFix.selected_type_id = []
    ∧ (process_message_task dbFix stVariantFix "شكرا" aiEmpty 4).state.current_step
      = PyVal.str "variant"
    ∧ (process_message_task dbFix stVariantFix "شكرا" aiEmpty 4).state = stVariantFix
    ∧ (process_message_task dbFix stVariantFix "شكرا" aiEmpty 4).response = Option.none := by
  refine ⟨by decide, by decide, by decide, by decide⟩

/-- C5, amended: for a type with zero distinct variant-kind labels, prompt
generation at the variant step emits nothing (the `None` skip signal) and
the turn sends no variant prompt, but the engine does NOT advance past the
variant step: a turn with no extracted fields leaves the state unchanged
at the variant step. -/
theorem C5_amended (db : DB) (st : ConversationState) (msg : String)
    (ai : AnalyzeResult) (now : Int)
    (hstep : st.current_step = PyVal.str "variant")
    (hkinds : variantKinds db st.selected_type_id = [])
    (hnc : pyStripLower msg ∉ cancelKeywords)
    (hresp : ai.response = "")
    (hcat : truthy ai.data.category = false)
    (hq : truthy ai.data.quantity = false)
    (hready : truthy ai.data.ready_for_invoice = false) :
    generate_step_message db st = Option.none
    ∧ (process_message_task db st msg ai now).response = Option.none
    ∧ (process_message_task db st msg ai now).state = st
    ∧ (process_message_task db st msg ai now).db = db := by
  have hnotconfirm : ¬ (st.current_step = PyVal.str "confirm") := by
    rw [hstep]; decide
  have hgen : generate_step_message db st = Option.none := by
    unfold generate_step_message
    rw [hstep]
    rw [if_neg (by decide), if_neg (by decide), if_neg (by decide), if_neg (by decide),
      if_pos rfl]
    unfold variant_message
    rw [hkinds]
    rfl
  have hmerge : mergeExtractedState db st ai.data now = st := by
    unfold mergeExtractedState
    rw [hcat, hq]
    simp only [Bool.false_eq_true, if_false]
  unfold process_message_task
  rw [if_neg hnc, if_neg (fun hand => hnotconfirm hand.1),
    if_neg (fun hand => hnotconfirm hand.1), if_neg (fun hand => hnotconfirm hand.1)]
  unfold interpretFlow
  rw [hready]
  simp only [Bool.false_eq_true, if_false, hmerge]
  have hresp2 : respTruthy (some ai.response) = false := by
    rw [hresp]; rfl
  rw [hresp2]
  simp only [Bool.false_eq_true, if_false, hgen]
  exact ⟨trivial, trivial, trivial, trivial⟩

/-- C5, witness for the amended theorem at the burger-box fixture. -/
theorem C5_amended_witness :
    generate_step_message dbFix stVariantFix = Option.none
    ∧ (process_message_task dbFix stVariantFix "شكرا" aiEmpty 8).response = Option.none
    ∧ (process_message_task dbFix stVariantFix "شكرا" aiEmpty 8).state = stVariantFix
    ∧ (process_message_task dbFix stVariantFix "شكرا" aiEmpty 8).db = dbFix :=
  C5_amended dbFix stVariantFix "شكرا" aiEmpty 8 rfl (by decide) (by decide) rfl
    (by decide) (by decide) (by decide)

/-- C6, counterexample: extracted fields carrying the quantity key with
value `0` are falsy under the `dict.get` truthiness test, so the engine
neither stores the quantity nor advances to confirm — the state is
entirely unchanged — refuting the claim for a present-but-zero quantity. -/
theorem C6_counterexample :
    aiQtyZero.data.quantity = PyVal.int 0
    ∧ (process_message_task dbFix stTypeFix "ابغى صفر" aiQtyZero 6).state = stTypeFix
    ∧ (process_message_task dbFix stTypeFix "ابغى صفر" aiQtyZero 6).state.selected_quantity
      = PyVal.none
    ∧ stTypeFix.current_step ≠ PyVal.str "confirm" := by
  refine ⟨by decide, by decide, by decide, by decide⟩

/-- C6, amended: for every turn that reaches field merging (not consumed
by the cancel vocabulary nor by the confirm-step vocabulary), a NONZERO
extracted quantity is stored in the state and the current step advances
straight to confirm, regardless of how type, size or variant stand. -/
theorem C6_amended (db : DB) (st : ConversationState) (msg : String)
    (ai : AnalyzeResult) (now : Int) (q : Int)
    (hnc : pyStripLower msg ∉ cancelKeywords)
    (hcfm : st.current_step = PyVal.str "confirm" →
      pyStripLower msg ∉ affirmativeWords ∧ pyStripLower msg ∉ editWords
        ∧ pyStripLower msg ∉ confirmCancelWords)
    (hq : ai.data.quantity = PyVal.int q) (hq0 : q ≠ 0) :
    (process_message_task db st msg ai now).state.selected_quantity = PyVal.int q
    ∧ (process_message_task db st msg ai now).state.current_step = PyVal.str "confirm" := by
  have htr : truthy ai.data.quantity = true := by
    rw [hq]; simp [truthy, hq0]
  unfold process_message_task
  rw [if_neg hnc, if_neg (fun hand => (hcfm hand.1).1 hand.2),
    if_neg (fun hand => (hcfm hand.1).2.1 hand.2),
    if_neg (fun hand => (hcfm hand.1).2.2 hand.2)]
  unfold interpretFlow mergeExtractedState
  rw [htr, hq]
  exact ⟨rfl, rfl⟩

/-- C6, witness for the amended theorem: quantity 800 extracted while the
state sits at the type step. -/
theorem C6_amended_witness :
    (process_message_task dbFix stTypeFix "ابغى ثمنمية" aiQty800 6).state.selected_quantity
      = PyVal.int 800
    ∧ (process_message_task dbFix stTypeFix "ابغى ثمنمية" aiQty800 6).state.current_step
      = PyVal.str "confirm" :=
  C6_amended dbFix stTypeFix "ابغى ثمنمية" aiQty800 6 800 (by decide) (by decide) rfl
    (by decide)

/-- C7: on an order in status PendingApproval, the management decision
with no capacity moves the order to `RejectedNoCapacity`, and with
capacity records the approved amount and estimated days (also as the total
amount) and moves the order to `ApprovedWaitingPayment`. -/
theorem C7_management_decision (db : DB) (oid : Int) (hc : Bool)
    (amt : Option ℚ) (days : Option Int) (o : Order)
    (hfind : db.orders.find? (fun x => decide (x.id = oid)) = some o)
    (hstatus : o.status = "PendingApproval") :
    set_management_decision db oid hc amt days
      = Except.ok (decidedDB db oid (decidedOrder o hc amt days), decidedOrder o hc amt days)
    ∧ (hc = false → (decidedOrder o hc amt days).status = "RejectedNoCapacity")
    ∧ (hc = true → (decidedOrder o hc amt days).status = "ApprovedWaitingPayment"
        ∧ (decidedOrder o hc amt days).approved_amount = amt
        ∧ (decidedOrder o hc amt days).estimated_days = days
        ∧ (decidedOrder o hc amt days).total_amount = amt) := by
  refine ⟨?_, ?_, ?_⟩
  · unfold set_management_decision
    rw [hfind]
  · intro h
    subst h
    rfl
  · intro h
    subst h
    exact ⟨rfl, rfl, rfl, rfl⟩

/-- C7, witness: the approving decision on the pending fixture order. -/
theorem C7_management_decision_witness :
    set_management_decision db1 1 true (some 250) (some 7)
      = Except.ok (decidedDB db1 1 (decidedOrder o1 true (some 250) (some 7)),
          decidedOrder o1 true (some 250) (some 7))
    ∧ (true = false → (decidedOrder o1 true (some 250) (some 7)).status = "RejectedNoCapacity")
    ∧ (true = true → (decidedOrder o1 true (some 250) (some 7)).status = "ApprovedWaitingPayment"
        ∧ (decidedOrder o1 true (some 250) (some 7)).approved_amount = some 250
        ∧ (decidedOrder o1 true (some 250) (some 7)).estimated_days = some 7
        ∧ (decidedOrder o1 true (some 250) (some 7)).total_amount = some 250) :=
  C7_management_decision db1 1 true (some 250) (some 7) o1 (by decide) rfl

/-- C8: materialization always creates the order with status
`PendingApproval` and no total amount, appending exactly that row; the
total stays absent until the management decision writes it
(`set_management_decision` being the only operation in this development
that assigns `total_amount`). -/
theorem C8_pending_no_total (db : DB) (s : ConversationState) (now : Int) :
    (create_order_from_state db s now).2.status = "PendingApproval"
    ∧ (create_order_from_state db s now).2.total_amount = Option.none
    ∧ (create_order_from_state db s now).1.orders
      = db.orders ++ [(create_order_from_state db s now).2] :=
  ⟨rfl, rfl, rfl⟩

/-- C8, witness at the confirm-step fixture. -/
theorem C8_pending_no_total_witness :
    (create_order_from_state dbFix stConfirm 12).2.status = "PendingApproval"
    ∧ (create_order_from_state dbFix stConfirm 12).2.total_amount = Option.none
    ∧ (create_order_from_state dbFix stConfirm 12).1.orders
      = dbFix.orders ++ [(create_order_from_state dbFix stConfirm 12).2] :=
  C8_pending_no_total dbFix stConfirm 12

/-- C9: when the underlying model call fails, `analyze_message` returns
the fixed low-confidence reply together with an extracted-fields mapping
whose intent is `error` — for every possible behaviour of the JSON parser,
so no internal failure propagates to the caller. -/
theorem C9_failure_fallback :
    ∀ jsonParse : String → Option ExtractedData,
      analyze_message AICallResult.failure jsonParse
        = { response := aiErrorResponse,
            data := { intent := PyVal.str "error", category := PyVal.none,
                      quantity := PyVal.none, ready_for_invoice := PyVal.none } } :=
  fun _ => rfl

/-- C9, witness at one concrete JSON-parser behaviour. -/
theorem C9_failure_fallback_witness :
    analyze_message AICallResult.failure (fun _ => Option.none)
      = { response := aiErrorResponse,
          data := { intent := PyVal.str "error", category := PyVal.none,
                    quantity := PyVal.none, ready_for_invoice := PyVal.none } } :=
  C9_failure_fallback (fun _ => Option.none)

/-- C10: a field-update call ignores (without error) every supplied name
that is not an attribute of the record, refreshes `updated_at`, and leaves
every attribute not named in the call — other than `updated_at` — at its
previous value. -/
theorem C10_update_frame (s : ConversationState) (kwargs : List (String × PyVal))
    (now : Int) :
    update_state s kwargs now
      = update_state s (kwargs.filter (fun kv => hasAttrCS kv.1)) now
    ∧ (update_state s kwargs now).updated_at = PyVal.int now
    ∧ ∀ name, name ∉ kwargs.map Prod.fst → name ≠ "updated_at" →
        getAttrCS (update_state s kwargs now) name = getAttrCS s name := by
  refine ⟨?_, rfl, ?_⟩
  · unfold update_state
    rw [foldl_updates_filter]
  · intro name h1 h2
    unfold update_state
    rw [getAttr_set_updated _ _ _ h2, foldl_updates_frame _ _ _ h1]

/-- C10, witness: an update naming a bogus field and `notes` leaves
`customer_name` untouched. -/
theorem C10_update_frame_witness :
    getAttrCS (update_state stUpd
      [("bogus_field", PyVal.int 5), ("notes", PyVal.str "جديد")] 7) "customer_name"
      = getAttrCS stUpd "customer_name" :=
  (C10_update_frame stUpd [("bogus_field", PyVal.int 5), ("notes", PyVal.str "جديد")] 7).2.2
    "customer_name" (by decide) (by decide)

end SmartSales
